import Mathlib

/-!
Verification development for the Xybitz ingestion-and-summarisation pipeline.

The Lean definitions below are a shallow embedding of the Python sources:
  - app/services/deduplication.py  (compute_url_hash)
  - app/services/categoriser.py    (_CATEGORIES, categorise)
  - app/services/feed_ingestion.py (extract_content_and_image)
  - app/services/summariser.py     (OllamaSummariser.summarise,
                                    summarise_with_retry, process_pending_articles)
  - app/services/scheduler.py      (watchdog_stuck_articles, purge_old_articles)

Python strings are modelled over their ASCII fragment: str.strip removes the
six ASCII whitespace characters, str.lower and str.upper map the ASCII
letters.  Timestamps are integers (seconds).  Database rows are lists of
records; SQLAlchemy filtered UPDATE and DELETE statements become `List.map`
with a per-row conditional and `List.filter`.  The outcome of a network call
is an explicit oracle argument.
-/

namespace Xybitz

/-! ## ASCII models of the Python string primitives -/

/-- Characters removed by Python `str.strip()` (ASCII fragment):
space, tab, newline, carriage return, vertical tab, form feed. -/
def isPyWs (c : Char) : Bool :=
  c = ' ' || c = '\t' || c = '\n' || c = '\r' || c.toNat = 11 || c.toNat = 12

/-- Python `str.strip()` on a list of characters. -/
def pyStripList (l : List Char) : List Char :=
  ((l.dropWhile isPyWs).reverse.dropWhile isPyWs).reverse

/-- Python `str.strip()`. -/
def pyStrip (s : String) : String :=
  String.mk (pyStripList s.toList)

/-- Python `str.lower()` on one character (ASCII fragment). -/
def pyLowerChar (c : Char) : Char :=
  if 65 ≤ c.toNat && c.toNat ≤ 90 then Char.ofNat (c.toNat + 32) else c

/-- Python `str.lower()` (ASCII fragment). -/
def pyLower (s : String) : String :=
  String.mk (s.toList.map pyLowerChar)

/-- Python `str.upper()` on one character (ASCII fragment). -/
def pyUpperChar (c : Char) : Char :=
  if 97 ≤ c.toNat && c.toNat ≤ 122 then Char.ofNat (c.toNat - 32) else c

/-- Python `str.upper()` (ASCII fragment). -/
def pyUpper (s : String) : String :=
  String.mk (s.toList.map pyUpperChar)

/-- Does `pre` occur at the start of `l`?  Models Python `str.startswith`. -/
def leadsWithList : List Char → List Char → Bool
  | [], _ => true
  | _ :: _, [] => false
  | a :: as, b :: bs => a = b && leadsWithList as bs

/-- Python `s.startswith(pre)`. -/
def pyStartsWith (s pre : String) : Bool :=
  leadsWithList pre.toList s.toList

/-- Does `needle` occur as a contiguous run inside `hay`?
Models the Python membership test `needle in hay`. -/
def occursInList (needle : List Char) : List Char → Bool
  | [] => needle.isEmpty
  | c :: rest => leadsWithList needle (c :: rest) || occursInList needle rest

/-- Python `needle in hay` on strings. -/
def pyIn (needle hay : String) : Bool :=
  occursInList needle.toList hay.toList

/-- Python slicing `s[:n]`: the first `n` characters. -/
def pySlice (s : String) (n : Nat) : String :=
  String.mk (s.toList.take n)

/-! ## Categoriser (app/services/categoriser.py) -/

/-- The static ordered rule table `_CATEGORIES`. -/
def _CATEGORIES : List (String × List String) :=
  [ ("ai_security",
      ["shadow ai", "llm attack", "ai security", "model poisoning",
       "prompt injection", "ai agent", "saas ai", "copilot security",
       "generative ai", "deepfake", "ai-generated malware"]),
    ("vulnerabilities",
      ["cve-", "nvd", "patch tuesday", "zero-day", "zero day",
       "exploit", "vulnerability", "advisory", "cvss", "rce", "remote code"]),
    ("malware",
      ["ransomware", "trojan", "botnet", "spyware", "wiper",
       "rat ", "dropper", "malware", "backdoor", "stealer", "rootkit"]),
    ("threat_intel",
      ["apt", "threat actor", "campaign", "nation-state", "ioc",
       "ttps", "mitre att&ck", "threat intelligence", "threat group"]),
    ("appsec",
      ["xss", "sql injection", "owasp", "api security", "web app",
       "sast", "dast", "burp", "penetration test", "csrf", "ssrf"]),
    ("cloud_security",
      ["aws", "azure", "gcp", "cloud", "s3 bucket", "iam",
       "kubernetes", "container", "docker", "terraform", "misconfiguration"]),
    ("compliance",
      ["gdpr", "hipaa", "pci dss", "iso 27001", "nist",
       "regulation", "audit", "compliance", "sox", "dora"]),
    ("privacy",
      ["data breach", "privacy", "tracking", "surveillance",
       "personal data", "leak", "deanonymization", "biometric"]) ]

/-- The text the categoriser scans: `(title + " " + content[:500]).lower()`. -/
def categoriseText (title content : String) : String :=
  pyLower (title ++ " " ++ pySlice content 500)

/-- `categorise(title, content)`: first rule in `_CATEGORIES` with a keyword
occurring in the scanned text wins; otherwise `"general"`. -/
def categorise (title content : String) : String :=
  match _CATEGORIES.find? (fun rule => rule.2.any (fun k => pyIn k (categoriseText title content))) with
  | some rule => rule.1
  | none => "general"

/-! ## Deduplication (app/services/deduplication.py)

`compute_url_hash(url)` is `hashlib.sha256(url.strip().lower().encode()).hexdigest()`.
SHA-256 is implemented below from FIPS 180-4 (`hashlib` is the Python standard
library, not repository code); 32-bit words are `Nat` reduced mod `2^32`. -/

def M32 : Nat := 4294967296

def rotr (n x : Nat) : Nat := ((x >>> n) ||| (x <<< (32 - n))) % M32

def chF (x y z : Nat) : Nat := (x &&& y) ^^^ ((x ^^^ (M32 - 1)) &&& z)

def majF (x y z : Nat) : Nat := (x &&& y) ^^^ (x &&& z) ^^^ (y &&& z)

def bigSigma0 (x : Nat) : Nat := rotr 2 x ^^^ rotr 13 x ^^^ rotr 22 x

def bigSigma1 (x : Nat) : Nat := rotr 6 x ^^^ rotr 11 x ^^^ rotr 25 x

def smallSigma0 (x : Nat) : Nat := rotr 7 x ^^^ rotr 18 x ^^^ (x >>> 3)

def smallSigma1 (x : Nat) : Nat := rotr 17 x ^^^ rotr 19 x ^^^ (x >>> 10)

/-- The 64 SHA-256 round constants (FIPS 180-4 §4.2.2, in decimal). -/
def sha256K : List Nat :=
  [1116352408, 1899447441, 3049323471, 3921009573, 961987163, 1508970993,
   2453635748, 2870763221, 3624381080, 310598401, 607225278, 1426881987,
   1925078388, 2162078206, 2614888103, 3248222580, 3835390401, 4022224774,
   264347078, 604807628, 770255983, 1249150122, 1555081692, 1996064986,
   2554220882, 2821834349, 2952996808, 3210313671, 3336571891, 3584528711,
   113926993, 338241895, 666307205, 773529912, 1294757372, 1396182291,
   1695183700, 1986661051, 2177026350, 2456956037, 2730485921, 2820302411,
   3259730800, 3345764771, 3516065817, 3600352804, 4094571909, 275423344,
   430227734, 506948616, 659060556, 883997877, 958139571, 1322822218,
   1537002063, 1747873779, 1955562222, 2024104815, 2227730452, 2361852424,
   2428436474, 2756734187, 3204031479, 3329325298]

/-- Big-endian byte expansion of `x` into `n` bytes. -/
def toBytesBE (n x : Nat) : List Nat :=
  (List.range n).map (fun i => (x >>> (8 * (n - 1 - i))) % 256)

/-- Group bytes into big-endian 32-bit words. -/
def bytesToWords : List Nat → List Nat
  | b0 :: b1 :: b2 :: b3 :: rest => (((b0 * 256 + b1) * 256 + b2) * 256 + b3) :: bytesToWords rest
  | _ => []

/-- SHA-256 padding: append 0x80, zeros to 56 mod 64, then the 64-bit
big-endian bit length. -/
def sha256Pad (msg : List Nat) : List Nat :=
  let L := msg.length
  let k := (119 - L % 64) % 64
  msg ++ (128 :: List.replicate k 0) ++ toBytesBE 8 (8 * L)

/-- Split a byte list into 64-byte blocks. -/
def chunks64 : List Nat → List (List Nat)
  | [] => []
  | b :: rest => ((b :: rest).take 64) :: chunks64 ((b :: rest).drop 64)
termination_by l => l.length
decreasing_by simp; omega

/-- Extend a 16-word message schedule array by `k` further words. -/
def buildSchedule (w : Array Nat) : Nat → Array Nat
  | 0 => w
  | k + 1 =>
    let i := w.size
    let nw := (smallSigma1 (w.getD (i - 2) 0) + w.getD (i - 7) 0 +
               smallSigma0 (w.getD (i - 15) 0) + w.getD (i - 16) 0) % M32
    buildSchedule (w.push nw) k

/-- The eight 32-bit working variables of the compression function. -/
structure H8 where
  a : Nat
  b : Nat
  c : Nat
  d : Nat
  e : Nat
  f : Nat
  g : Nat
  h : Nat
deriving Repr, DecidableEq

/-- Initial SHA-256 hash value (FIPS 180-4 §5.3.3, in decimal). -/
def sha256H0 : H8 :=
  ⟨1779033703, 3144134277, 1013904242, 2773480762,
   1359893119, 2600822924, 528734635, 1541459225⟩

/-- One round of the SHA-256 compression function. -/
def compressStep (s : H8) (wk : Nat × Nat) : H8 :=
  let T1 := (s.h + bigSigma1 s.e + chF s.e s.f s.g + wk.2 + wk.1) % M32
  let T2 := (bigSigma0 s.a + majF s.a s.b s.c) % M32
  ⟨(T1 + T2) % M32, s.a, s.b, s.c, (s.d + T1) % M32, s.e, s.f, s.g⟩

/-- Process one 64-byte block. -/
def compressBlock (s0 : H8) (block : List Nat) : H8 :=
  let w := buildSchedule (bytesToWords block).toArray 48
  let s := (w.toList.zip sha256K).foldl compressStep s0
  ⟨(s0.a + s.a) % M32, (s0.b + s.b) % M32, (s0.c + s.c) % M32, (s0.d + s.d) % M32,
   (s0.e + s.e) % M32, (s0.f + s.f) % M32, (s0.g + s.g) % M32, (s0.h + s.h) % M32⟩

/-- SHA-256 digest of a byte string, as eight 32-bit words. -/
def sha256Words (msg : List Nat) : H8 :=
  (chunks64 (sha256Pad msg)).foldl compressBlock sha256H0

def hexDigit (n : Nat) : Char :=
  (String.toList "0123456789abcdef").getD n '0'

/-- Lowercase hex rendering of a 32-bit word, always 8 characters. -/
def wordHex (w : Nat) : List Char :=
  (List.range 8).map (fun i => hexDigit ((w >>> (4 * (7 - i))) % 16))

/-- `hashlib.sha256(bytes).hexdigest()`. -/
def sha256Hex (msg : List Nat) : String :=
  let d := sha256Words msg
  String.mk (([d.a, d.b, d.c, d.d, d.e, d.f, d.g, d.h].map wordHex).flatten)

/-- UTF-8 encoding of one character; `str.encode()` uses UTF-8. -/
def utf8Char (c : Char) : List Nat :=
  let n := c.toNat
  if n < 128 then [n]
  else if n < 2048 then [192 + n / 64, 128 + n % 64]
  else if n < 65536 then [224 + n / 4096, 128 + (n / 64) % 64, 128 + n % 64]
  else [240 + n / 262144, 128 + (n / 4096) % 64, 128 + (n / 64) % 64, 128 + n % 64]

/-- `str.encode()`: UTF-8 bytes of a string. -/
def pyEncode (s : String) : List Nat :=
  (s.toList.map utf8Char).flatten

/-- The normalisation applied inside `compute_url_hash`: `url.strip().lower()`. -/
def normalizeUrl (url : String) : String :=
  pyLower (pyStrip url)

/-- `compute_url_hash(url)` from app/services/deduplication.py. -/
def compute_url_hash (url : String) : String :=
  sha256Hex (pyEncode (normalizeUrl url))

/-! ## Data model (app/models.py)

The fields of `Article` that the summarisation pipeline reads or writes.
`summaryStatus` keeps the source's string values `"pending"`, `"processing"`,
`"done"`, `"failed"`; `fetchedAt` is a timestamp in seconds. -/

structure Article where
  id : Nat
  title : String
  category : String
  fetchedAt : Int
  rawContent : Option String
  summary : Option String
  summaryStatus : String
  isActive : Bool
deriving Repr, DecidableEq

/-! ## Summariser (app/services/summariser.py) -/

def MARKETING_ONLY_TOKEN : String := "MARKETING_ONLY"

/-- The configured inference provider (`settings.LLM_PROVIDER`). -/
inductive Provider
  | ollama
  | openai
  | groq
  | unknown (name : String)
deriving Repr, DecidableEq

/-- Outcome of one HTTP round trip to the backend, as seen by `summarise`:
`ok body` is a successful response whose relevant text field is `body`
(`data["response"]` for ollama, the message content for openai/groq);
`failure` is any transport error, non-2xx status, or malformed payload,
which the source converts into a raised `SummarisationError`. -/
inductive BackendResponse
  | ok (body : String)
  | failure
deriving Repr, DecidableEq

/-- `OllamaSummariser.summarise`: one inference attempt.  Only the ollama
branch checks for an empty or short response; the openai and groq branches
return the stripped text unchecked; an unknown provider raises before any
request is made. -/
def summarise (provider : Provider) (resp : BackendResponse) : Except String String :=
  match provider with
  | .ollama =>
    match resp with
    | .failure => .error "Summarisation failed"
    | .ok body =>
      let t := pyStrip body
      if t = "" || t.length < 10 then .error "Ollama returned empty/short response"
      else .ok t
  | .openai =>
    match resp with
    | .failure => .error "Summarisation failed"
    | .ok body => .ok (pyStrip body)
  | .groq =>
    match resp with
    | .failure => .error "Summarisation failed"
    | .ok body => .ok (pyStrip body)
  | .unknown _ => .error "Unknown LLM provider"

/-- The fixed delay (seconds) slept between the two attempts,
`asyncio.sleep(5)` in `summarise_with_retry`. -/
def RETRY_DELAY_SECONDS : Nat := 5

/-- `OllamaSummariser.summarise_with_retry`: two attempts (`range(2)`); a
first failure is retried after the fixed delay, a second failure propagates.
`r1` and `r2` are the backend outcomes of the two attempts. -/
def summarise_with_retry (provider : Provider) (r1 r2 : BackendResponse) :
    Except String String :=
  match summarise provider r1 with
  | .ok s => .ok s
  | .error _ => summarise provider r2

/-- The text handed to the summariser in `process_one`:
`article.raw_content or article.title or ""`. -/
def contentOf (a : Article) : String :=
  let rc := a.rawContent.getD ""
  if rc = "" then a.title else rc

/-- The per-article state transition of `process_one`, given the outcome
`res` of `summarise_with_retry`: on success, a response starting (after
strip and uppercase) with the sentinel token hides the article
(`summary = None`, `status = done`, `is_active = False`); any other success
stores the summary with `status = done`; an exception sets
`status = failed`. -/
def process_one (a : Article) (res : Except String String) : Article :=
  match res with
  | .ok summary =>
    if pyStartsWith (pyUpper (pyStrip summary)) MARKETING_ONLY_TOKEN then
      { a with summary := none, summaryStatus := "done", isActive := false }
    else
      { a with summary := some summary, summaryStatus := "done" }
  | .error _ => { a with summaryStatus := "failed" }

/-- The ordering used by the claim query: `ORDER BY fetched_at ASC`. -/
def fetchedLe (a b : Article) : Prop :=
  a.fetchedAt ≤ b.fetchedAt

instance : DecidableRel fetchedLe := fun a b => Int.decLe a.fetchedAt b.fetchedAt

instance : IsTotal Article fetchedLe :=
  ⟨fun a b => Int.le_total a.fetchedAt b.fetchedAt⟩

instance : IsTrans Article fetchedLe :=
  ⟨fun _ _ _ hab hbc => le_trans hab hbc⟩

/-- The claim query of `process_pending_articles`: all articles with
`summary_status == "pending"`, ordered by `fetched_at` ascending, no cap. -/
def selectPending (arts : List Article) : List Article :=
  (arts.filter (fun a => a.summaryStatus = "pending")).insertionSort fetchedLe

/-- The claim update of `process_pending_articles`:
`UPDATE articles SET summary_status = "processing" WHERE id IN ids`. -/
def markProcessing (ids : List Nat) (arts : List Article) : List Article :=
  arts.map (fun a =>
    if ids.contains a.id then { a with summaryStatus := "processing" } else a)

/-- The state reached after the claim phase of `process_pending_articles`
(committed before any inference call is made). -/
def claimPhase (arts : List Article) : List Article :=
  markProcessing ((selectPending arts).map (·.id)) arts

/-- The execution phase: every claimed article (identified by id) is rewritten
by `process_one`; `oracle id content` is the outcome of
`summarise_with_retry(content, id)` for that article. -/
def execPhase (oracle : Nat → String → Except String String) (ids : List Nat)
    (arts : List Article) : List Article :=
  arts.map (fun a =>
    if ids.contains a.id then process_one a (oracle a.id (contentOf a)) else a)

/-- The stats dict returned by `process_pending_articles`. -/
structure BatchStats where
  processed : Nat
  done : Nat
  failed : Nat
  skipped : Bool
deriving Repr, DecidableEq

def isOkB : Except String String → Bool
  | .ok _ => true
  | .error _ => false

instance {ε α : Type} [DecidableEq ε] [DecidableEq α] : DecidableEq (Except ε α) := fun x y =>
  match x, y with
  | .ok a, .ok b =>
    if h : a = b then .isTrue (by rw [h])
    else .isFalse (by intro hc; injection hc; contradiction)
  | .ok _, .error _ => .isFalse (by intro hc; cases hc)
  | .error _, .ok _ => .isFalse (by intro hc; cases hc)
  | .error e, .error f =>
    if h : e = f then .isTrue (by rw [h])
    else .isFalse (by intro hc; injection hc; contradiction)

/-- `process_pending_articles(db)`.  `locked` models
`_running_lock.locked()`: when a batch is already in progress the call
returns `processed = 0` with `skipped = True` and touches no article.
Otherwise: claim all pending articles (ordered by `fetched_at` ascending) in
one batch update, then run `process_one` on each claimed article, counting
`done_count`/`failed_count` per outcome. -/
def process_pending_articles (locked : Bool)
    (oracle : Nat → String → Except String String) (arts : List Article) :
    List Article × BatchStats :=
  if locked then
    (arts, ⟨0, 0, 0, true⟩)
  else
    let claimed := selectPending arts
    if claimed.isEmpty then
      (arts, ⟨0, 0, 0, false⟩)
    else
      let ids := claimed.map (·.id)
      let marked := markProcessing ids arts
      let final := execPhase oracle ids marked
      let doneC := (claimed.filter (fun a => isOkB (oracle a.id (contentOf a)))).length
      let failedC := (claimed.filter (fun a => !isOkB (oracle a.id (contentOf a)))).length
      (final, ⟨claimed.length, doneC, failedC, false⟩)

/-! ## Scheduler jobs (app/services/scheduler.py) -/

def STUCK_THRESHOLD_MINUTES : Nat := 5

/-- The per-row effect of the watchdog UPDATE: reset to `"pending"` when
`summary_status == "processing"` and `fetched_at < cutoff` where
`cutoff = now - threshold`. -/
def watchdogOne (now threshold : Int) (a : Article) : Article :=
  if a.summaryStatus = "processing" ∧ a.fetchedAt < now - threshold then
    { a with summaryStatus := "pending" }
  else a

/-- One run of `watchdog_stuck_articles` at time `now` with stuck threshold
`threshold` (both in seconds): articles with `summary_status == "processing"`
and `fetched_at < now - threshold` are reset to `"pending"`.  Note the
filter is on `fetched_at`, the fetch timestamp — the schema records no
timestamp for when an article entered `processing`. -/
def watchdog_stuck_articles (now threshold : Int) (arts : List Article) :
    List Article :=
  arts.map (watchdogOne now threshold)

/-- The safe-category computation of `purge_old_articles`: categories having
at least one `done` article with `fetched_at >= cutoff`. -/
def safeCategories (cutoff : Int) (arts : List Article) : List String :=
  (arts.filter (fun a => a.summaryStatus = "done" ∧ cutoff ≤ a.fetchedAt)).map
    (·.category)

/-- One run of `purge_old_articles` with retention cutoff `cutoff`: delete
expired (`fetched_at < cutoff`) non-`done` articles unconditionally, and
expired `done` articles only when their category is safe.  (The source's
`if safe_categories:` guard is equivalent to membership in the possibly
empty safe list.) -/
def purge_old_articles (cutoff : Int) (arts : List Article) : List Article :=
  let safe := safeCategories cutoff arts
  arts.filter (fun a =>
    ¬ ((a.fetchedAt < cutoff ∧ a.summaryStatus ≠ "done") ∨
       (a.fetchedAt < cutoff ∧ a.summaryStatus = "done" ∧ a.category ∈ safe)))

/-! ## Content extractor (app/services/feed_ingestion.py) -/

/-- Scan for the first `>`; return the characters after it.  All characters
skipped on the way are non-`>`, so a hit corresponds to the `[^>]*>` tail of
the regex `<[^>]+>`. -/
def findTagEnd : List Char → Option (List Char)
  | [] => none
  | c :: rest => if c = '>' then some rest else findTagEnd rest

/-- A successful match of the regex `<[^>]+>` starting right after a `<`:
the first interior character must not be `>`, and the rest up to the first
`>` forms the interior; returns the characters after the closing `>`. -/
def tagSplit : List Char → Option (List Char)
  | [] => none
  | c :: rest => if c = '>' then none else findTagEnd rest

theorem findTagEnd_length {l tail : List Char} (h : findTagEnd l = some tail) :
    tail.length < l.length := by
  induction l with
  | nil => simp [findTagEnd] at h
  | cons c rest ih =>
    by_cases hc : c = '>'
    · simp [findTagEnd, hc] at h
      subst h
      simp
    · simp [findTagEnd, hc] at h
      have := ih h
      simp
      omega

theorem tagSplit_length {rest tail : List Char} (h : tagSplit rest = some tail) :
    tail.length < rest.length := by
  cases rest with
  | nil => simp [tagSplit] at h
  | cons c rest =>
    by_cases hc : c = '>'
    · simp [tagSplit, hc] at h
    · simp [tagSplit, hc] at h
      have := findTagEnd_length h
      simp
      omega

/-- `re.sub(r"<[^>]+>", " ", s)` on a character list: each maximal
`<`…`>` group with a nonempty interior becomes a single space; an
unmatched `<` is kept literally. -/
def stripTags : List Char → List Char
  | [] => []
  | c :: rest =>
    if c = '<' then
      match h : tagSplit rest with
      | some tail => ' ' :: stripTags tail
      | none => '<' :: stripTags rest
    else c :: stripTags rest
termination_by l => l.length
decreasing_by
  · have := tagSplit_length h
    simp
    omega
  · simp
  · simp

/-- `re.sub(r"\s+", " ", s)`: collapse each maximal whitespace run to a
single space. -/
def collapseWs : List Char → List Char
  | [] => []
  | c :: rest =>
    if isPyWs c then ' ' :: collapseWs (rest.dropWhile isPyWs)
    else c :: collapseWs rest
termination_by l => l.length
decreasing_by
  · have := (List.dropWhile_sublist (l := rest) isPyWs).length_le
    simp
    omega
  · simp

/-- One feed-entry field as tier 2 sees it: missing/None, a plain string, or
a list of content objects carrying `value` strings (feedparser's shape for
the `content` field).  An empty list fails both the list unwrap and the
string check in the source and is skipped. -/
inductive EntryField
  | absent
  | str (s : String)
  | list (vals : List String)
deriving Repr, DecidableEq

/-- The string the tier-2 loop ends up testing for a field, if any:
`val = entry.get(field)`, then `val = val[0].get("value", "")` when `val`
is a nonempty list. -/
def fieldText : EntryField → Option String
  | .absent => none
  | .str s => some s
  | .list [] => none
  | .list (v :: _) => some v

/-- The feed-entry fields read by `extract_content_and_image`. -/
structure FeedEntry where
  content : EntryField
  summaryDetail : EntryField
  summaryField : EntryField
  description : EntryField
  title : Option String
  sourceTitle : Option String
deriving Repr, DecidableEq

/-- The tier-2 cleaning chain:
`re.sub(r"\s+", " ", re.sub(r"<[^>]+>", " ", val).strip())`. -/
def tier2Clean (v : String) : String :=
  String.mk (collapseWs (pyStripList (stripTags v.toList)))

/-- The tier-2 loop over `["content", "summary_detail", "summary",
"description"]`: first field whose cleaned text exceeds 50 characters wins,
truncated to 3000. -/
def tier2Content : List EntryField → String
  | [] => ""
  | f :: rest =>
    match fieldText f with
    | none => tier2Content rest
    | some v =>
      if v ≠ "" ∧ 50 < (pyStrip v).length then
        let clean := tier2Clean v
        if 50 < clean.length then pySlice clean 3000 else tier2Content rest
      else tier2Content rest

/-- The tier-1 block: `t1` is the combined outcome of the network fetch and
`trafilatura.bare_extraction` — `none` for any exception, timeout, falsy html
or falsy result; `some (text?, image?)` for a result dict with its `text` and
`image` entries (falsy values mapped to `none`).  Text is accepted only above
100 characters after strip, truncated to 3000; the image is captured even
when the text is rejected. -/
def tier1Extract (t1 : Option (Option String × Option String)) :
    String × Option String :=
  match t1 with
  | none => ("", none)
  | some (textOpt, imgOpt) =>
    let extractedText := textOpt.getD ""
    let c :=
      if 100 < (pyStrip extractedText).length then pySlice (pyStrip extractedText) 3000
      else ""
    (c, imgOpt)

/-- The `if not content:` fallback to the tier-2 field loop. -/
def tier2Or (entry : FeedEntry) (c : String) : String :=
  if c = "" then
    tier2Content [entry.content, entry.summaryDetail, entry.summaryField, entry.description]
  else c

/-- The `if not content:` fallback to tier 3: `f"{title}. {source_title}".strip()`. -/
def tier3Or (entry : FeedEntry) (c : String) : String :=
  if c = "" then
    pyStrip ((entry.title.getD "") ++ ". " ++ (entry.sourceTitle.getD ""))
  else c

/-- `extract_content_and_image(url, entry)`: tier 1, else tier 2, else
tier 3; the tier-1 image is returned in every case. -/
def extract_content_and_image (t1 : Option (Option String × Option String))
    (entry : FeedEntry) : String × Option String :=
  (tier3Or entry (tier2Or entry (tier1Extract t1).1), (tier1Extract t1).2)

/-! ## Theorems -/

/-- Helper: `find?` skips a run of elements on which the predicate fails. -/
theorem find?_append_none {α : Type} (p : α → Bool) (pre l : List α)
    (h : ∀ r ∈ pre, p r = false) :
    List.find? p (pre ++ l) = List.find? p l := by
  induction pre with
  | nil => rfl
  | cons x xs ih =>
    have hx : ¬ p x = true := by simp [h x (by simp)]
    rw [List.cons_append, List.find?_cons_of_neg (xs ++ l) hx]
    exact ih (fun r hr => h r (List.mem_cons_of_mem x hr))

/-- Helper: the first rule (in table order) matching the scanned text decides
the category. -/
theorem categorise_eq_of_first_match (title content : String)
    (pre : List (String × List String)) (rule : String × List String)
    (post : List (String × List String))
    (hsplit : _CATEGORIES = pre ++ rule :: post)
    (hpre : ∀ r ∈ pre, r.2.any (fun k => pyIn k (categoriseText title content)) = false)
    (hrule : rule.2.any (fun k => pyIn k (categoriseText title content)) = true) :
    categorise title content = rule.1 := by
  unfold categorise
  rw [hsplit, find?_append_none _ pre _ hpre, List.find?_cons_of_pos post hrule]

/-- C9: `categorise` scans `(title + " " + content[:500]).lower()` against the
rule table in the fixed priority order `ai_security, vulnerabilities, malware,
threat_intel, appsec, cloud_security, compliance, privacy`, returning the slug
of the first rule with a keyword substring match and `"general"` when no rule
matches; text containing `"prompt injection"` classifies as `ai_security`
regardless of what else (e.g. `"exploit"`) it contains. -/
theorem categorise_priority_spec :
    (_CATEGORIES.map Prod.fst =
      ["ai_security", "vulnerabilities", "malware", "threat_intel", "appsec",
       "cloud_security", "compliance", "privacy"]) ∧
    (∀ title content pre rule post,
      _CATEGORIES = pre ++ rule :: post →
      (∀ r ∈ pre, r.2.any (fun k => pyIn k (categoriseText title content)) = false) →
      rule.2.any (fun k => pyIn k (categoriseText title content)) = true →
      categorise title content = rule.1) ∧
    (∀ title content,
      (∀ r ∈ _CATEGORIES, r.2.any (fun k => pyIn k (categoriseText title content)) = false) →
      categorise title content = "general") ∧
    (∀ title content, pyIn "prompt injection" (categoriseText title content) = true →
      categorise title content = "ai_security") ∧
    categorise "Prompt Injection used to EXPLOIT coding assistants" "" = "ai_security"
    := by
  refine ⟨by decide, ?_, ?_, ?_, by decide⟩
  · exact fun title content pre rule post hsplit hpre hrule =>
      categorise_eq_of_first_match title content pre rule post hsplit hpre hrule
  · intro title content hall
    unfold categorise
    have : List.find?
        (fun rule => rule.2.any fun k => pyIn k (categoriseText title content))
        _CATEGORIES = none := by
      rw [List.find?_eq_none]
      intro r hr
      simp [hall r hr]
    rw [this]
  · intro title content hpi
    refine categorise_eq_of_first_match title content [] _ _ rfl (by simp) ?_
    exact List.any_eq_true.mpr ⟨"prompt injection", by decide, hpi⟩

/-- Witness for C9: a concrete text containing both `"prompt injection"` and
`"exploit"` classifies as `ai_security`, through the theorem itself. -/
theorem categorise_priority_spec_witness :
    categorise "New prompt injection exploit" "" = "ai_security" :=
  categorise_priority_spec.2.2.2.1 "New prompt injection exploit" "" (by decide)

/-- C2: invoking `process_pending_articles` while a batch already holds the
single-flight lock returns immediately with a skipped result
(`processed = 0`, `skipped = True`) and leaves every article unchanged,
whatever trigger produced the call and whatever the backend would answer. -/
theorem runBatch_locked_skips (oracle : Nat → String → Except String String)
    (arts : List Article) :
    process_pending_articles true oracle arts = (arts, ⟨0, 0, 0, true⟩) := rfl

/-- A sample claimed article used to instantiate concrete scenarios. -/
def demoArticle : Article :=
  ⟨1, "Vendor update", "general", 100, some "body text", none, "processing", true⟩

/-- C4, counterexample: the code tests `summary.strip().upper().startswith(token)`,
not token *presence*.  For a successful response that merely contains
`MARKETING_ONLY` in the middle, the claim requires `summary = None` and
`isActive = False`, but `process_one` stores the text as the summary and
leaves the article visible. -/
theorem process_one_sentinel_mid_cex :
    pyIn MARKETING_ONLY_TOKEN "The vendor mail mentions MARKETING_ONLY twice" = true ∧
    process_one demoArticle
        (Except.ok "The vendor mail mentions MARKETING_ONLY twice") =
      { demoArticle with
          summary := some "The vendor mail mentions MARKETING_ONLY twice",
          summaryStatus := "done" } ∧
    (process_one demoArticle
        (Except.ok "The vendor mail mentions MARKETING_ONLY twice")).isActive = true := by
  refine ⟨by decide, by decide, by decide⟩

/-- C4, amended: for a claimed article whose inference call succeeds, if the
returned text — after strip and uppercase — *starts with* the sentinel token,
the article ends `done` with `summary = None` and `isActive = False`;
otherwise it ends `done` with the generated text as summary. -/
theorem process_one_sentinel_spec (a : Article) (s : String) :
    (pyStartsWith (pyUpper (pyStrip s)) MARKETING_ONLY_TOKEN = true →
      process_one a (Except.ok s) =
        { a with summary := none, summaryStatus := "done", isActive := false }) ∧
    (pyStartsWith (pyUpper (pyStrip s)) MARKETING_ONLY_TOKEN = false →
      process_one a (Except.ok s) =
        { a with summary := some s, summaryStatus := "done" }) := by
  constructor <;> intro h <;> simp [process_one, h]

/-- Witness for C4: a lowercase, whitespace-framed sentinel response hides the
article, through the theorem itself. -/
theorem process_one_sentinel_spec_witness :
    process_one demoArticle (Except.ok "  marketing_only  ") =
      { demoArticle with summary := none, summaryStatus := "done", isActive := false } :=
  (process_one_sentinel_spec demoArticle "  marketing_only  ").1 (by decide)

/-- C5, counterexample: an empty backend response is a domain error only for
the ollama provider; the openai branch returns the stripped empty string as a
successful summary, contradicting "regardless of the configured provider". -/
theorem summarise_openai_empty_cex :
    summarise Provider.openai (BackendResponse.ok "") = Except.ok "" ∧
    summarise Provider.ollama (BackendResponse.ok "") =
      Except.error "Ollama returned empty/short response" := by
  exact ⟨rfl, by decide⟩

/-- C5, amended: under the ollama provider an empty or sub-10-character
response (after strip) is a domain error, and any transport failure is an
error for every provider; on a first failure the call is retried (once, after
the fixed delay) and the second outcome — success or error — is what
propagates, so a second failure reaches the caller and the article is marked
failed. -/
theorem summarise_retry_spec (p : Provider) (r1 r2 : BackendResponse) :
    (∀ body, (pyStrip body = "" ∨ (pyStrip body).length < 10) →
      summarise Provider.ollama (BackendResponse.ok body) =
        Except.error "Ollama returned empty/short response") ∧
    (isOkB (summarise p BackendResponse.failure) = false) ∧
    (∀ s, summarise p r1 = Except.ok s → summarise_with_retry p r1 r2 = Except.ok s) ∧
    (∀ e, summarise p r1 = Except.error e →
      summarise_with_retry p r1 r2 = summarise p r2) := by
  refine ⟨?_, by cases p <;> rfl, ?_, ?_⟩
  · intro body h
    have hcond : (pyStrip body = "" || (pyStrip body).length < 10) = true := by
      rcases h with h | h
      · simp [h]
      · simp [h]
    simp [summarise, hcond]
  · intro s h
    unfold summarise_with_retry
    rw [h]
  · intro e h
    unfold summarise_with_retry
    rw [h]

/-- Witness for C5: a first empty ollama response is retried and the second,
plausible response is returned, through the theorem itself. -/
theorem summarise_retry_spec_witness :
    summarise_with_retry Provider.ollama (BackendResponse.ok "")
        (BackendResponse.ok "A plausible hundred-word summary.") =
      Except.ok "A plausible hundred-word summary." := by
  rw [(summarise_retry_spec Provider.ollama (BackendResponse.ok "")
        (BackendResponse.ok "A plausible hundred-word summary.")).2.2.2
      "Ollama returned empty/short response" (by decide)]
  decide

/-- An article fetched at time 0 whose summarisation is still pending. -/
def oldFetchArticle : Article :=
  ⟨7, "Fetched long ago", "general", 0, some "body", none, "pending", true⟩

/-- C3, counterexample: the watchdog filters on `fetched_at`, not on the time
the article entered `processing`.  Scenario (threshold 300 s): the article was
fetched at time 0, sat pending, and was claimed into `processing` by a batch
at time 350; the watchdog runs at time 360 — the article has been in
`processing` for only 10 s, under the threshold, so the claim requires it be
left unchanged — yet the code resets it to `pending` because its fetch time
is older than the threshold. -/
theorem watchdog_fetchedAt_cex :
    (claimPhase [oldFetchArticle]).map (·.summaryStatus) = ["processing"] ∧
    (watchdog_stuck_articles 360 300 (claimPhase [oldFetchArticle])).map
        (·.summaryStatus) = ["pending"] ∧
    ((360 : Int) - 350 < 300) := by
  refine ⟨by decide, by decide, by decide⟩

/-- C3, amended: one watchdog run resets a `processing` article to `pending`
if and only if its `fetchedAt` is older than `now - threshold`; articles in
any other status are untouched.  Since `fetchedAt` precedes the moment `e`
an article entered `processing`, every article stuck in `processing` longer
than the threshold is still always reset — but an article claimed less than
the threshold ago may also be reset when its fetch time is old. -/
theorem watchdog_reset_spec (now threshold : Int) (a : Article) :
    (a.summaryStatus = "processing" → a.fetchedAt < now - threshold →
      watchdogOne now threshold a = { a with summaryStatus := "pending" }) ∧
    (a.summaryStatus = "processing" → ¬ a.fetchedAt < now - threshold →
      watchdogOne now threshold a = a) ∧
    (a.summaryStatus ≠ "processing" → watchdogOne now threshold a = a) ∧
    (∀ e : Int, a.summaryStatus = "processing" → a.fetchedAt ≤ e →
      threshold < now - e →
      watchdogOne now threshold a = { a with summaryStatus := "pending" }) ∧
    (∀ arts : List Article,
      watchdog_stuck_articles now threshold arts = arts.map (watchdogOne now threshold)) := by
  refine ⟨?_, ?_, ?_, ?_, fun _ => rfl⟩
  · intro hs hf
    simp [watchdogOne, hs, hf]
  · intro hs hf
    simp [watchdogOne, hs, hf]
  · intro hs
    simp [watchdogOne, hs]
  · intro e hs he hth
    have hf : a.fetchedAt < now - threshold := by omega
    simp [watchdogOne, hs, hf]

/-- Witness for C3 (amended): a concrete article stuck in `processing` since
before the cutoff is reset on the next watchdog run, through the theorem
itself. -/
theorem watchdog_reset_spec_witness :
    watchdogOne 1000 300 ⟨7, "Fetched long ago", "general", 0, some "body", none, "processing", true⟩ =
      ⟨7, "Fetched long ago", "general", 0, some "body", none, "pending", true⟩ :=
  (watchdog_reset_spec 1000 300
      ⟨7, "Fetched long ago", "general", 0, some "body", none, "processing", true⟩).1
    rfl (by decide)

/-- C6: one purge run deletes every expired (`fetchedAt < cutoff`) article
whose status is not `done` unconditionally; it deletes an expired `done`
article exactly when its category is "safe" — has at least one `done`
article inside the retention window — so for a category with zero `done`
articles in the window every `done` article survives, however old. -/
theorem purge_protection_spec (cutoff : Int) (arts : List Article) (a : Article)
    (h : a ∈ arts) :
    (a.fetchedAt < cutoff → a.summaryStatus ≠ "done" →
      a ∉ purge_old_articles cutoff arts) ∧
    (a.fetchedAt < cutoff → a.summaryStatus = "done" →
      a.category ∈ safeCategories cutoff arts →
      a ∉ purge_old_articles cutoff arts) ∧
    (a.summaryStatus = "done" → a.category ∉ safeCategories cutoff arts →
      a ∈ purge_old_articles cutoff arts) ∧
    (cutoff ≤ a.fetchedAt → a ∈ purge_old_articles cutoff arts) ∧
    (∀ c : String, c ∈ safeCategories cutoff arts ↔
      ∃ b ∈ arts, b.summaryStatus = "done" ∧ cutoff ≤ b.fetchedAt ∧ b.category = c) := by
  refine ⟨?_, ?_, ?_, ?_, ?_⟩
  · intro hexp hnd hmem
    rw [purge_old_articles, List.mem_filter] at hmem
    have hp := hmem.2
    simp at hp
    rcases hp.1 with h1 | h1
    · omega
    · exact hnd h1
  · intro hexp hd hsafe hmem
    rw [purge_old_articles, List.mem_filter] at hmem
    have hp := hmem.2
    simp at hp
    rcases hp.2 with h1 | h1 | h1
    · omega
    · exact h1 hd
    · exact h1 hsafe
  · intro hd hsafe
    rw [purge_old_articles, List.mem_filter]
    refine ⟨h, ?_⟩
    simp [hd]
    exact Or.inr hsafe
  · intro hfresh
    rw [purge_old_articles, List.mem_filter]
    refine ⟨h, ?_⟩
    simp
    exact ⟨Or.inl hfresh, Or.inl hfresh⟩
  · intro c
    simp only [safeCategories, List.mem_map, List.mem_filter]
    constructor
    · rintro ⟨b, ⟨hb, hpred⟩, hc⟩
      simp at hpred
      exact ⟨b, hb, hpred.1, hpred.2, hc⟩
    · rintro ⟨b, hb, hd, hfa, hc⟩
      exact ⟨b, ⟨hb, by simp [hd, hfa]⟩, hc⟩

/-- Witness for C6: in a two-article store whose only `done` article in the
category `general` is outside the retention window, the purge run keeps it
(through the theorem itself) even though it is expired. -/
theorem purge_protection_spec_witness :
    (⟨3, "Old done", "general", 0, none, some "s", "done", true⟩ : Article) ∈
      purge_old_articles 500
        [⟨3, "Old done", "general", 0, none, some "s", "done", true⟩,
         ⟨4, "Old failed", "general", 10, none, none, "failed", true⟩] :=
  (purge_protection_spec 500
      [⟨3, "Old done", "general", 0, none, some "s", "done", true⟩,
       ⟨4, "Old failed", "general", 10, none, none, "failed", true⟩]
      ⟨3, "Old done", "general", 0, none, some "s", "done", true⟩
      (by decide)).2.2.1 rfl (by decide)

/-- Fallback row used with `List.getD` when stating positional properties. -/
def dummyArticle : Article := ⟨0, "", "general", 0, none, none, "pending", true⟩

/-- C1: the claim phase of `process_pending_articles` selects exactly the
pending articles (no cap), ordered by `fetchedAt` ascending, and its one
batch UPDATE moves every previously pending article to `processing` — in the
embedding the oracle for backend calls is only ever applied to the
post-claim state, and after the claim no position that held a pending
article is still pending. -/
theorem claim_phase_spec (arts : List Article) :
    (selectPending arts).Perm (arts.filter (fun a => a.summaryStatus = "pending")) ∧
    (selectPending arts).Sorted fetchedLe ∧
    (∀ a ∈ arts, a.summaryStatus = "pending" → a ∈ selectPending arts) ∧
    (∀ i, i < arts.length →
      (arts.getD i dummyArticle).summaryStatus = "pending" →
      ((claimPhase arts).getD i dummyArticle).summaryStatus = "processing") := by
  have hperm : (selectPending arts).Perm
      (arts.filter (fun a => a.summaryStatus = "pending")) :=
    List.perm_insertionSort fetchedLe _
  refine ⟨hperm, List.sorted_insertionSort fetchedLe _, ?_, ?_⟩
  · intro a ha hp
    rw [hperm.mem_iff, List.mem_filter]
    exact ⟨ha, by simp [hp]⟩
  · intro i hi hp
    have hsome : arts[i]? = some arts[i] := List.getElem?_eq_getElem hi
    simp only [List.getD_eq_getElem?_getD, hsome, Option.getD_some] at hp
    have hmemsel : arts[i] ∈ selectPending arts := by
      rw [hperm.mem_iff, List.mem_filter]
      exact ⟨List.getElem_mem hi, by simp [hp]⟩
    have hex : ∃ a ∈ selectPending arts, a.id = arts[i].id := ⟨arts[i], hmemsel, rfl⟩
    simp only [claimPhase, markProcessing, List.getD_eq_getElem?_getD,
      List.getElem?_map, hsome, Option.map_some, Option.getD_some]
    simp [hex]

/-- Witness for C1: in a three-article store the claim phase marks the
pending article at position 0 as `processing`, through the theorem itself. -/
theorem claim_phase_spec_witness :
    ((claimPhase
        [⟨1, "a", "general", 50, none, none, "pending", true⟩,
         ⟨2, "b", "general", 10, none, none, "done", true⟩,
         ⟨3, "c", "general", 5, none, none, "pending", true⟩]).getD 0
      dummyArticle).summaryStatus = "processing" :=
  (claim_phase_spec
      [⟨1, "a", "general", 50, none, none, "pending", true⟩,
       ⟨2, "b", "general", 10, none, none, "done", true⟩,
       ⟨3, "c", "general", 5, none, none, "pending", true⟩]).2.2.2 0
    (by decide) (by decide)

/-- Helper: a list splits by a Boolean predicate into matching and
non-matching parts of complementary lengths. -/
theorem length_filter_add_length_filter_not {α : Type} (p : α → Bool) (l : List α) :
    (l.filter p).length + (l.filter (fun x => !p x)).length = l.length := by
  induction l with
  | nil => rfl
  | cons x xs ih =>
    by_cases hx : p x = true <;>
      simp [List.filter_cons, hx] <;> omega

/-- Helper: `process_one` always lands in a terminal status. -/
theorem process_one_terminal (a : Article) (res : Except String String) :
    (process_one a res).summaryStatus = "done" ∨
    (process_one a res).summaryStatus = "failed" := by
  cases res with
  | ok s =>
    by_cases hs : pyStartsWith (pyUpper (pyStrip s)) MARKETING_ONLY_TOKEN = true <;>
      simp [process_one, hs]
  | error e => simp [process_one]

/-- Helper: every article of the execution-phase output whose id was claimed
is in a terminal status. -/
theorem execPhase_terminal (oracle : Nat → String → Except String String)
    (ids : List Nat) (arts : List Article) (a : Article)
    (ha : a ∈ execPhase oracle ids arts) (hid : a.id ∈ ids) :
    a.summaryStatus = "done" ∨ a.summaryStatus = "failed" := by
  rw [execPhase, List.mem_map] at ha
  rcases ha with ⟨b, hb, hba⟩
  by_cases hc : ids.contains b.id = true
  · rw [if_pos hc] at hba
    rw [← hba]
    exact process_one_terminal b _
  · rw [if_neg hc] at hba
    subst hba
    exact absurd (List.contains_iff_exists_mem_beq.mpr ⟨b.id, hid, by simp⟩) hc

/-- C10: a non-skipped `process_pending_articles` run reports
`processed` equal to the number of claimed (pending) articles, with
`processed = done + failed`, and leaves every article whose id was claimed in
a terminal status — `done` or `failed` — never `processing`. -/
theorem runBatch_terminal_spec (oracle : Nat → String → Except String String)
    (arts : List Article) :
    ((process_pending_articles false oracle arts).2.processed
        = (selectPending arts).length) ∧
    ((process_pending_articles false oracle arts).2.processed
        = (process_pending_articles false oracle arts).2.done
          + (process_pending_articles false oracle arts).2.failed) ∧
    ((process_pending_articles false oracle arts).2.skipped = false) ∧
    (∀ a ∈ (process_pending_articles false oracle arts).1,
      a.id ∈ (selectPending arts).map (·.id) →
      a.summaryStatus = "done" ∨ a.summaryStatus = "failed") := by
  by_cases he : (selectPending arts).isEmpty = true
  · have hrun : process_pending_articles false oracle arts = (arts, ⟨0, 0, 0, false⟩) := by
      simp [process_pending_articles, he]
    have hlen : (selectPending arts).length = 0 := by
      rw [List.isEmpty_iff] at he
      simp [he]
    refine ⟨by simp [hrun, hlen], by simp [hrun], by simp [hrun], ?_⟩
    intro a _ hid
    rw [List.isEmpty_iff] at he
    rw [he] at hid
    simp at hid
  · have hrun : process_pending_articles false oracle arts =
        (execPhase oracle ((selectPending arts).map (·.id))
            (markProcessing ((selectPending arts).map (·.id)) arts),
         ⟨(selectPending arts).length,
          ((selectPending arts).filter
            (fun a => isOkB (oracle a.id (contentOf a)))).length,
          ((selectPending arts).filter
            (fun a => !isOkB (oracle a.id (contentOf a)))).length,
          false⟩) := by
      simp [process_pending_articles, he]
    refine ⟨by rw [hrun], ?_, by rw [hrun], ?_⟩
    · rw [hrun]
      exact (length_filter_add_length_filter_not _ _).symm
    · intro a ha hid
      rw [hrun] at ha
      exact execPhase_terminal _ _ _ a ha hid

/-- Witness for C10: a two-article store, one backend success and one
failure; the run reports `processed = 2 = 1 + 1` and both claimed articles
end in a terminal status, through the theorem itself. -/
theorem runBatch_terminal_spec_witness :
    ((process_pending_articles false
        (fun i _ => if i = 1 then Except.ok "A sufficiently long summary." else Except.error "boom")
        [⟨1, "a", "general", 5, some "body one", none, "pending", true⟩,
         ⟨2, "b", "general", 9, some "body two", none, "pending", true⟩]).2.processed
      = 2) ∧
    ((process_pending_articles false
        (fun i _ => if i = 1 then Except.ok "A sufficiently long summary." else Except.error "boom")
        [⟨1, "a", "general", 5, some "body one", none, "pending", true⟩,
         ⟨2, "b", "general", 9, some "body two", none, "pending", true⟩]).1.map
        (·.summaryStatus) = ["done", "failed"]) := by
  constructor
  · have h := (runBatch_terminal_spec
        (fun i _ => if i = 1 then Except.ok "A sufficiently long summary." else Except.error "boom")
        [⟨1, "a", "general", 5, some "body one", none, "pending", true⟩,
         ⟨2, "b", "general", 9, some "body two", none, "pending", true⟩]).1
    rw [h]
    decide
  · decide

/-- Helper: a list containing a non-whitespace character survives the
Python strip. -/
theorem pyStripList_ne_nil {l : List Char} {c : Char} (hc : c ∈ l)
    (hw : isPyWs c = false) : pyStripList l ≠ [] := by
  intro hnil
  unfold pyStripList at hnil
  rw [List.reverse_eq_nil_iff, List.dropWhile_eq_nil_iff] at hnil
  by_cases hd : l.dropWhile isPyWs = []
  · rw [List.dropWhile_eq_nil_iff] at hd
    have := hd c hc
    rw [hw] at this
    simp at this
  · have hhead := List.head_dropWhile_not isPyWs l hd
    have hmem : (l.dropWhile isPyWs).head hd ∈ (l.dropWhile isPyWs).reverse := by
      rw [List.mem_reverse]
      exact List.head_mem hd
    have htrue := hnil _ hmem
    rw [hhead] at htrue
    simp at htrue

/-- Helper: strings with different character lists differ. -/
theorem mk_ne_empty_of_ne_nil {l : List Char} (h : l ≠ []) : String.mk l ≠ "" := by
  intro he
  apply h
  have hdata : (String.mk l).data = ("" : String).data := by rw [he]
  simpa using hdata

/-- C8: the content extractor is a total function (the embedding has no
exceptional exit) and never returns empty content: whatever the tier-1 fetch
outcome and the feed-entry fields, the result text is nonempty — in the
extreme case of an absent fetch, absent fields, absent title and absent
source name the tier-3 fallback still yields the nonempty string `"."`. -/
theorem extract_nonempty :
    (∀ t1 entry, (extract_content_and_image t1 entry).1 ≠ "") ∧
    (extract_content_and_image none
        ⟨EntryField.absent, EntryField.absent, EntryField.absent, EntryField.absent,
         none, none⟩ = (".", none)) := by
  refine ⟨?_, by decide⟩
  intro t1 entry
  show tier3Or entry (tier2Or entry (tier1Extract t1).1) ≠ ""
  unfold tier3Or
  by_cases h2 : tier2Or entry (tier1Extract t1).1 = ""
  · rw [if_pos h2]
    unfold pyStrip
    apply mk_ne_empty_of_ne_nil
    apply pyStripList_ne_nil (c := '.')
    · have : ((entry.title.getD "") ++ ". " ++ (entry.sourceTitle.getD "")).data =
          (entry.title.getD "").data ++ ('.' :: ' ' :: []) ++ (entry.sourceTitle.getD "").data := by
        simp [String.data_append]
      rw [String.toList, this]
      simp
    · rfl
  · rw [if_neg h2]
    exact h2

/-- Witness-style corollary for C8 (the theorem has no standalone premise;
this instantiates it at the fully-absent input). -/
theorem extract_nonempty_witness :
    extract_content_and_image none
        ⟨EntryField.absent, EntryField.absent, EntryField.absent, EntryField.absent,
         none, none⟩ = (".", none) :=
  extract_nonempty.2

/-- Helper: each word renders as exactly 8 hex characters. -/
theorem wordHex_length (w : Nat) : (wordHex w).length = 8 := by
  simp [wordHex]

/-- Helper: every digest is a 64-character string. -/
theorem sha256Hex_length (msg : List Nat) : (sha256Hex msg).length = 64 := by
  show (String.mk _).data.length = 64
  simp [List.length_flatten, wordHex_length]

/-- C7: `compute_url_hash` is a pure function of the normalised URL
(`strip` + ASCII `lower`), so equal normalisations give equal hashes, and
its output is always a 64-character hex string.  The converse direction —
equal hashes only for equal normalisations — is exactly collision-freeness
of SHA-256 on the two encoded inputs, which is taken as the hypothesis
`hcoll` (it is the standard cryptographic assumption; a 64-hex-character
digest cannot be injective on all strings, and no concrete SHA-256 collision
is known). -/
theorem url_hash_spec (u1 u2 : String)
    (hcoll : sha256Hex (pyEncode (normalizeUrl u1)) =
               sha256Hex (pyEncode (normalizeUrl u2)) →
             normalizeUrl u1 = normalizeUrl u2) :
    (compute_url_hash u1 = compute_url_hash u2 ↔ normalizeUrl u1 = normalizeUrl u2) ∧
    (compute_url_hash u1).length = 64 := by
  refine ⟨⟨hcoll, ?_⟩, sha256Hex_length _⟩
  intro h
  unfold compute_url_hash
  rw [h]

/-- Witness for C7: two URLs differing only in case and surrounding
whitespace hash identically, and the digest has 64 characters, through the
theorem itself. -/
theorem url_hash_spec_witness :
    (compute_url_hash "  HTTPS://Example.com/A  " = compute_url_hash "https://example.com/a") ∧
    (compute_url_hash "  HTTPS://Example.com/A  ").length = 64 := by
  have h := url_hash_spec "  HTTPS://Example.com/A  " "https://example.com/a"
    (fun _ => by decide)
  exact ⟨h.1.mpr (by decide), h.2⟩

end Xybitz











